import Mathlib

/-!
Verification of the NorthWind outbound-integration core (transfer lifecycle,
reconciler, regulator notification pipeline) against its natural-language
specification.  The Go source is shallowly embedded: each Go function that a
claim mentions is translated into an executable Lean definition over explicit
state; the environment (HTTP responses, clock readings, random draws, freshly
minted identifiers) is passed as parameters.  Go `float64` arithmetic in the
backoff computation is modelled over `ℚ`; timestamps are abstract ticks (`ℕ`);
UUIDs are modelled as `ℕ` identifiers.
-/

namespace NorthwindCore

/-! ## Status domain (internal/models, northwind_transfers table)

The local transfer status constants.  Terminal set T = {COMPLETED, FAILED,
CANCELLED, REVERSED}; regulator-notifiable set N = {COMPLETED, FAILED}. -/

def NWTransferStatusPending : String := "PENDING"

def NWTransferStatusProcessing : String := "PROCESSING"

def NWTransferStatusCompleted : String := "COMPLETED"

def NWTransferStatusFailed : String := "FAILED"

def NWTransferStatusCancelled : String := "CANCELLED"

def NWTransferStatusReversed : String := "REVERSED"

/-- Membership in the terminal set T. -/
def isTerminalStatus (s : String) : Bool :=
  s = NWTransferStatusCompleted ∨ s = NWTransferStatusFailed ∨
    s = NWTransferStatusCancelled ∨ s = NWTransferStatusReversed

/-! ## internal/integrations/northwind/helpers.go -/

/-- Embedding of `northwind.MapStatus`: the Go `switch` on the upstream status
string, written as the equivalent `if` chain (a Go `case "A", "B":` arm is the
disjunction of the two equalities). -/
def MapStatus (apiStatus : String) : String :=
  if apiStatus = "COMPLETED" ∨ apiStatus = "completed" then NWTransferStatusCompleted
  else if apiStatus = "FAILED" ∨ apiStatus = "failed" then NWTransferStatusFailed
  else if apiStatus = "CANCELLED" ∨ apiStatus = "cancelled" then NWTransferStatusCancelled
  else if apiStatus = "REVERSED" ∨ apiStatus = "reversed" then NWTransferStatusReversed
  else if apiStatus = "PROCESSING" ∨ apiStatus = "processing" then NWTransferStatusProcessing
  else NWTransferStatusPending

/-- Embedding of `northwind.ParseRFC3339Optional`.  `timeParse` models Go
`time.Parse(time.RFC3339, ·)` on non-empty input, returning `none` on a parse
error; the function itself maps the empty string (an absent optional field of
the upstream JSON response) to `none`. -/
def ParseRFC3339Optional (timeParse : String → Option ℕ) (s : String) : Option ℕ :=
  if s = "" then none
  else timeParse s

/-! ## RegulatorService.calculateBackoff (internal/services/regulator_service.go)

The Go code computes, in `float64` seconds (modelled over `ℚ`):
`b := base * 2^(attempt-1)`; cap at `max`; `jitter := b * 0.2 * (rand*2 - 1)`
with `rand = rand.Float64() ∈ [0,1)`; `b += jitter`; floor at 1.  The final
`time.Duration` conversion multiplies by `10^9` nanoseconds; the value is
stated here in seconds. -/
def calculateBackoff (retryInitialSeconds retryMaxSeconds : ℚ) (randFloat : ℚ)
    (attemptCount : ℕ) : ℚ :=
  let base := retryInitialSeconds
  let maxS := retryMaxSeconds
  let b0 := base * 2 ^ (attemptCount - 1)
  let b1 := if b0 > maxS then maxS else b0
  let jitter := b1 * (1/5) * (randFloat * 2 - 1)
  let b2 := b1 + jitter
  if b2 < 1 then 1 else b2

/-! ## Regulator notification data model (internal/models/regulator_notification.go) -/

/-- Embedding of `models.RegulatorWebhookPayload`.  JSON marshalling of the
payload is kept structural (the claims never inspect the byte encoding). -/
structure RegulatorWebhookPayload where
  eventId : String
  transferId : ℕ
  northwindTransferId : ℕ
  status : String
  amount : ℚ
  currency : String
  direction : String
  transferType : String
  timestamp : ℕ
deriving Repr, DecidableEq

/-- Embedding of `models.RegulatorNotification` (a `regulator_notifications`
row).  `id`, `transfer_id` are UUIDs modelled as `ℕ`; timestamps are ticks. -/
structure RegulatorNotification where
  id : ℕ
  transferId : ℕ
  terminalStatus : String
  delivered : Bool
  attemptCount : ℕ
  firstAttemptAt : Option ℕ
  lastAttemptAt : Option ℕ
  nextAttemptAt : Option ℕ
  lastHTTPStatus : Option ℕ
  lastError : Option String
  payload : RegulatorWebhookPayload
deriving Repr, DecidableEq

/-- Embedding of `models.RegulatorNotificationAttempt` (a
`regulator_notification_attempts` row; `attempted_at` is set by the store). -/
structure RegulatorNotificationAttempt where
  notificationId : ℕ
  httpStatus : Option ℕ
  error : Option String
  responseBody : Option String
deriving Repr, DecidableEq

/-- The outcome of one webhook HTTP exchange, as seen by `attemptDelivery`:
`http.NewRequestWithContext` failed, `httpClient.Do` failed (transport error),
or a response with a status code and a body was received. -/
inductive WebhookOutcome where
  | reqError (msg : String)
  | transportError (msg : String)
  | response (status : ℕ) (body : String)
deriving Repr, DecidableEq

/-- The store state owned by the notification pipeline: the
`regulator_notifications` and `regulator_notification_attempts` tables. -/
structure RegStore where
  notifications : List RegulatorNotification
  attempts : List RegulatorNotificationAttempt
deriving Repr, DecidableEq

/-! ## RegulatorService (internal/services/regulator_service.go) -/

/-- The attempt row built by `RegulatorService.recordAttempt`: the `error` and
`response_body` columns are only populated from non-empty strings. -/
def recordAttempt (n : RegulatorNotification) (httpStatus : Option ℕ)
    (errMsg respBody : String) : RegulatorNotificationAttempt :=
  { notificationId := n.id
    httpStatus := httpStatus
    error := if errMsg = "" then none else some errMsg
    responseBody := if respBody = "" then none else some respBody }

/-- The notification mutation done by `RegulatorService.scheduleRetry`: bump
`attempt_count`, stamp `last_attempt_at` (and `first_attempt_at` if unset),
and set `next_attempt_at := now + backoff`.  The backoff duration (the result
of `calculateBackoff`, which is randomised) is passed in as `backoff`. -/
def scheduleRetry (now backoff : ℕ) (n : RegulatorNotification) : RegulatorNotification :=
  { n with
    attemptCount := n.attemptCount + 1
    lastAttemptAt := some now
    firstAttemptAt := some (n.firstAttemptAt.getD now)
    nextAttemptAt := some (now + backoff) }

/-- The notification mutation done by `attemptDelivery` in its 2xx branch. -/
def markDelivered (now status : ℕ) (n : RegulatorNotification) : RegulatorNotification :=
  { n with
    delivered := true
    attemptCount := n.attemptCount + 1
    lastAttemptAt := some now
    lastHTTPStatus := some status
    firstAttemptAt := some (n.firstAttemptAt.getD now)
    nextAttemptAt := none
    lastError := none }

/-- Response-body truncation in `attemptDelivery` (`len > 1000` → first 1000). -/
def truncateBody (s : String) : String :=
  if s.length > 1000 then s.take 1000 else s

/-- A single store write issued by the notification pipeline: either
`notifRepo.Update` (a row update keyed by `id`) or `attemptRepo.Create`
(an insert into the attempts table). -/
inductive StoreOp where
  | updateNotif (n : RegulatorNotification)
  | insertAttempt (a : RegulatorNotificationAttempt)
deriving Repr, DecidableEq

/-- Embedding of `RegulatorService.attemptDelivery` as the sequence of store
writes it issues, in program order.  On a request-construction failure or a
transport error: `recordAttempt` (null status) then `scheduleRetry`'s update.
On a 2xx response: the success update of the notification FIRST, then the
attempt insert.  On a non-2xx response: `recordAttempt` (with the status and
the error text `"webhook returned HTTP <code>"`) then `scheduleRetry`. -/
def attemptDeliveryOps (now backoff : ℕ) (n : RegulatorNotification)
    (out : WebhookOutcome) : List StoreOp :=
  match out with
  | .reqError msg =>
      [.insertAttempt (recordAttempt n none ("failed to create request: " ++ msg) ""),
       .updateNotif (scheduleRetry now backoff n)]
  | .transportError msg =>
      [.insertAttempt (recordAttempt n none msg ""),
       .updateNotif (scheduleRetry now backoff n)]
  | .response status body =>
      let respBody := truncateBody body
      if 200 ≤ status ∧ status < 300 then
        let n' := markDelivered now status n
        [.updateNotif n',
         .insertAttempt (recordAttempt n' (some status) "" respBody)]
      else
        [.insertAttempt
           (recordAttempt n (some status)
             ("webhook returned HTTP " ++ toString status) respBody),
         .updateNotif (scheduleRetry now backoff n)]

/-- Effect of one store write.  `notifRepo.Update` (gorm `Save`) replaces the
row with the matching primary key; `attemptRepo.Create` appends a row. -/
def applyOp (s : RegStore) : StoreOp → RegStore
  | .updateNotif n =>
      { s with notifications := s.notifications.map fun m => if m.id = n.id then n else m }
  | .insertAttempt a => { s with attempts := s.attempts ++ [a] }

/-- Apply a sequence of store writes in order. -/
def applyOps (s : RegStore) (ops : List StoreOp) : RegStore :=
  ops.foldl applyOp s

/-- Every store state observable while a sequence of (non-transactional)
writes is applied one by one: the initial state, each intermediate state, and
the final state. -/
def observableStates (s : RegStore) (ops : List StoreOp) : List RegStore :=
  ops.scanl applyOp s

/-- Embedding of `regulatorNotificationRepository.ExistsForTransferAndStatus`:
`count(*) where transfer_id = ? and terminal_status = ?` is positive. -/
def existsForTransferAndStatus (s : RegStore) (transferId : ℕ) (terminalStatus : String) : Bool :=
  decide (0 < (s.notifications.countP
    fun n => n.transferId == transferId && n.terminalStatus == terminalStatus))

/-- Number of notification rows for a `(transfer_id, terminal_status)` pair. -/
def countFor (s : RegStore) (transferId : ℕ) (terminalStatus : String) : ℕ :=
  s.notifications.countP
    fun n => n.transferId == transferId && n.terminalStatus == terminalStatus

/-- Environment of one `CreateAndSendNotification` / `attemptDelivery`
invocation: the freshly minted notification UUID, the payload `event_id`
UUID, the clock reading, the randomised backoff, and the webhook outcome. -/
structure DeliveryEnv where
  freshId : ℕ
  eventId : String
  now : ℕ
  backoff : ℕ
  outcome : WebhookOutcome
deriving Repr, DecidableEq

/-- The notification row built by `CreateAndSendNotification` from the
transfer's fields (the webhook payload construction and the fresh row of step
3: `delivered=false`, `attempt_count=0`, `next_attempt_at=now`). -/
def buildNotification (env : DeliveryEnv) (transferId northwindTransferId : ℕ)
    (amount : ℚ) (currency direction transferType : String)
    (terminalStatus : String) : RegulatorNotification :=
  { id := env.freshId
    transferId := transferId
    terminalStatus := terminalStatus
    delivered := false
    attemptCount := 0
    firstAttemptAt := none
    lastAttemptAt := none
    nextAttemptAt := some env.now
    lastHTTPStatus := none
    lastError := none
    payload :=
      { eventId := env.eventId
        transferId := transferId
        northwindTransferId := northwindTransferId
        status := terminalStatus
        amount := amount
        currency := currency
        direction := direction
        transferType := transferType
        timestamp := env.now } }

/-- Embedding of `RegulatorService.CreateAndSendNotification`: the idempotency
check against the store, then payload construction, `notifRepo.Create` of the
fresh undelivered row, then a synchronous `attemptDelivery`.  Returns the
resulting store and whether the call returned success (`nil` error);
repository writes are modelled as succeeding. -/
def CreateAndSendNotification (env : DeliveryEnv) (transferId northwindTransferId : ℕ)
    (amount : ℚ) (currency direction transferType : String)
    (terminalStatus : String) (s : RegStore) : RegStore × Bool :=
  if existsForTransferAndStatus s transferId terminalStatus then
    (s, true)
  else
    let n := buildNotification env transferId northwindTransferId amount currency
      direction transferType terminalStatus
    let s1 : RegStore := { s with notifications := s.notifications ++ [n] }
    (applyOps s1 (attemptDeliveryOps env.now env.backoff n env.outcome), true)

/-- Repeated invocations of `CreateAndSendNotification` for the same transfer
and terminal status, under a list of per-invocation environments. -/
def runCreateAndSend (envs : List DeliveryEnv) (transferId northwindTransferId : ℕ)
    (amount : ℚ) (currency direction transferType : String)
    (terminalStatus : String) (s : RegStore) : RegStore :=
  envs.foldl
    (fun st e =>
      (CreateAndSendNotification e transferId northwindTransferId amount currency
        direction transferType terminalStatus st).1) s

/-- Whether an attempt row records a success: `http_status ∈ [200, 299]`. -/
def isSuccessAttempt (a : RegulatorNotificationAttempt) : Bool :=
  match a.httpStatus with
  | some st => decide (200 ≤ st) && decide (st ≤ 299)
  | none => false

/-- Per-notification delivery-correctness invariant of the spec:
`delivered = true` exactly when a success (2xx) attempt row exists for it. -/
def deliveredIffSuccessAttempt (s : RegStore) : Prop :=
  ∀ n ∈ s.notifications,
    (n.delivered = true ↔
      ∃ a ∈ s.attempts, a.notificationId = n.id ∧ isSuccessAttempt a = true)

instance (s : RegStore) : Decidable (deliveredIffSuccessAttempt s) := by
  unfold deliveredIffSuccessAttempt
  infer_instance

/-! ## Transfer data model (northwind_transfers table / models.NorthwindTransfer) -/

/-- Embedding of `models.NorthwindTransfer` (a `northwind_transfers` row).
UUID columns are `ℕ` identifiers, `NUMERIC` columns are `ℚ`, nullable
columns are `Option`, timestamps are ticks. -/
structure NorthwindTransfer where
  id : ℕ
  userId : Option ℕ
  northwindTransferId : ℕ
  direction : String
  transferType : String
  amount : ℚ
  currency : String
  description : Option String
  referenceNumber : String
  scheduledDate : Option ℕ
  sourceAccountNumber : String
  sourceRoutingNumber : Option String
  sourceAccountHolderName : Option String
  destinationAccountNumber : String
  destinationRoutingNumber : Option String
  destinationAccountHolderName : Option String
  status : String
  errorCode : Option String
  errorMessage : Option String
  initiatedDate : Option ℕ
  processingDate : Option ℕ
  expectedCompletionDate : Option ℕ
  completedDate : Option ℕ
  fee : Option ℚ
  exchangeRate : Option ℚ
deriving Repr, DecidableEq

/-! ## NorthWind API wire models (internal/worker — northwind models file) -/

/-- Embedding of `northwind.AccountDetails`. -/
structure AccountDetails where
  accountHolderName : String
  accountNumber : String
  routingNumber : String
  institutionName : String
deriving Repr, DecidableEq

/-- Embedding of `northwind.TransferResponse` (also the status-poll response:
`TransferStatusResponse = TransferResponse`).  Optional JSON string fields
decode to `""` when absent; `fee`/`exchange_rate` are pointers (`Option`). -/
structure TransferResponse where
  transferId : String
  status : String
  amount : ℚ
  currency : String
  direction : String
  transferType : String
  referenceNumber : String
  description : String
  scheduledDate : String
  sourceAccount : AccountDetails
  destinationAccount : AccountDetails
  initiatedDate : String
  processingDate : String
  expectedCompletionDate : String
  completedDate : String
  fee : Option ℚ
  exchangeRate : Option ℚ
  errorCode : String
  errorMessage : String
deriving Repr, DecidableEq

/-- Embedding of `northwind.TransferValidationIssue`. -/
structure TransferValidationIssue where
  field : String
  message : String
  severity : String
deriving Repr, DecidableEq

/-- Embedding of `northwind.TransferValidationResponse`. -/
structure TransferValidationResponse where
  valid : Bool
  issues : List TransferValidationIssue
deriving Repr, DecidableEq

/-- Embedding of `northwind.AccountBalance`. -/
structure AccountBalance where
  accountNumber : String
  availableBalance : ℚ
  currentBalance : ℚ
  currency : String
deriving Repr, DecidableEq

/-! ## NorthwindTransferService (services — northwind transfer service file) -/

/-- The service-level errors of `NorthwindTransferService` and the repository
error it propagates.  The codebase has no Forbidden error on these paths. -/
inductive NWError where
  | transferNotFoundRepo
  | transferNotFound
  | validationFailed (msg : String)
  | insufficientBalance
  | initiateFailed
  | cancelUpstreamFailed
  | reverseUpstreamFailed
deriving Repr, DecidableEq

/-- Embedding of `CreateTransferAccountDetails` (request shape). -/
structure CreateTransferAccountDetails where
  accountHolderName : String
  accountNumber : String
  routingNumber : String
  institutionName : String
deriving Repr, DecidableEq

/-- Embedding of `services.CreateTransferRequest`. -/
structure CreateTransferRequest where
  amount : ℚ
  currency : String
  description : String
  direction : String
  transferType : String
  referenceNumber : String
  scheduledDate : String
  sourceAccount : CreateTransferAccountDetails
  destinationAccount : CreateTransferAccountDetails
deriving Repr, DecidableEq

/-- Observable outcome of one `CreateTransfer` call: the returned value or
error, whether `InitiateTransfer` was invoked upstream, and the Transfer row
written to the store (`none` when no row was written). -/
structure CreateTransferOutcome where
  result : Except NWError NorthwindTransfer
  initiateCalled : Bool
  storedRow : Option NorthwindTransfer
deriving Repr

/-- Embedding of `NorthwindTransferService.CreateTransfer`.  Upstream call
outcomes are inputs: `vresp` (`ValidateTransfer`; `none` = transport error,
which is logged and ignored), `bresp` (`GetAccountBalance`; `none` = error,
ignored), `iresp` (`InitiateTransfer`; `none` = error → `initiateFailed`).
`uuidParse` models `uuid.Parse` of the upstream transfer id (`none` = parse
error → the fresh fallback id is used); `newLocalId` is the id the store
assigns to the new row; the repository `Create` is modelled as succeeding. -/
def CreateTransfer (uuidParse : String → Option ℕ) (timeParse : String → Option ℕ)
    (fallbackNwId newLocalId userId : ℕ) (req : CreateTransferRequest)
    (vresp : Option TransferValidationResponse) (bresp : Option AccountBalance)
    (iresp : Option TransferResponse) : CreateTransferOutcome :=
  -- Step 1: validate transfer with NorthWind (best effort)
  let validationReject : Option String :=
    match vresp with
    | none => none
    | some v =>
        if v.valid then none
        else
          match v.issues.find? (fun issue => issue.severity == "error") with
          | some issue => some issue.message
          | none => none
  match validationReject with
  | some msg =>
      { result := .error (.validationFailed msg), initiateCalled := false, storedRow := none }
  | none =>
    -- Step 2: check balance for source account (best effort)
    let balanceReject : Bool :=
      match bresp with
      | none => false
      | some b => decide (b.availableBalance < req.amount)
    if balanceReject then
      { result := .error .insufficientBalance, initiateCalled := false, storedRow := none }
    else
      -- Step 3: initiate transfer with NorthWind
      match iresp with
      | none =>
          { result := .error .initiateFailed, initiateCalled := true, storedRow := none }
      | some nwResp =>
        -- Step 4: store locally
        let nwTransferID := (uuidParse nwResp.transferId).getD fallbackNwId
        let transfer : NorthwindTransfer :=
          { id := newLocalId
            userId := some userId
            northwindTransferId := nwTransferID
            direction := req.direction
            transferType := req.transferType
            amount := req.amount
            currency := req.currency
            description := if req.description ≠ "" then some req.description else none
            referenceNumber := req.referenceNumber
            scheduledDate :=
              if nwResp.scheduledDate ≠ "" then
                ParseRFC3339Optional timeParse nwResp.scheduledDate
              else if req.scheduledDate ≠ "" then
                ParseRFC3339Optional timeParse req.scheduledDate
              else none
            sourceAccountNumber := req.sourceAccount.accountNumber
            sourceRoutingNumber :=
              if req.sourceAccount.routingNumber ≠ "" then
                some req.sourceAccount.routingNumber else none
            sourceAccountHolderName :=
              if req.sourceAccount.accountHolderName ≠ "" then
                some req.sourceAccount.accountHolderName else none
            destinationAccountNumber := req.destinationAccount.accountNumber
            destinationRoutingNumber :=
              if req.destinationAccount.routingNumber ≠ "" then
                some req.destinationAccount.routingNumber else none
            destinationAccountHolderName :=
              if req.destinationAccount.accountHolderName ≠ "" then
                some req.destinationAccount.accountHolderName else none
            status := MapStatus nwResp.status
            errorCode := if nwResp.errorCode ≠ "" then some nwResp.errorCode else none
            errorMessage := if nwResp.errorMessage ≠ "" then some nwResp.errorMessage else none
            initiatedDate := ParseRFC3339Optional timeParse nwResp.initiatedDate
            processingDate := ParseRFC3339Optional timeParse nwResp.processingDate
            expectedCompletionDate := ParseRFC3339Optional timeParse nwResp.expectedCompletionDate
            completedDate := ParseRFC3339Optional timeParse nwResp.completedDate
            fee := nwResp.fee
            exchangeRate := nwResp.exchangeRate }
        { result := .ok transfer, initiateCalled := true, storedRow := some transfer }

/-- Embedding of `NorthwindTransferService.GetTransfer`: look the row up by id
(`lookup = none` models `ErrNorthwindTransferNotFound` from the repository)
and enforce ownership: a stored non-null user different from the caller yields
`ErrNWTransferNotFound`. -/
def GetTransfer (userId : ℕ) (lookup : Option NorthwindTransfer) :
    Except NWError NorthwindTransfer :=
  match lookup with
  | none => .error .transferNotFoundRepo
  | some transfer =>
      match transfer.userId with
      | some owner => if owner ≠ userId then .error .transferNotFound else .ok transfer
      | none => .ok transfer

/-- The post-upstream mutation shared by `CancelTransfer` and
`ReverseTransfer`: overwrite `status` with the mapped upstream status and set
the error columns from non-empty response fields. -/
def applyUpstreamOutcome (t : NorthwindTransfer) (r : TransferResponse) : NorthwindTransfer :=
  let t1 := { t with status := MapStatus r.status }
  let t2 := if r.errorCode ≠ "" then { t1 with errorCode := some r.errorCode } else t1
  if r.errorMessage ≠ "" then { t2 with errorMessage := some r.errorMessage } else t2

/-- Embedding of `NorthwindTransferService.CancelTransfer`: `GetTransfer`,
then the upstream cancel call (`resp = none` = failure), then the status/error
overwrite and the row update (the returned transfer is the written row). -/
def CancelTransfer (userId : ℕ) (lookup : Option NorthwindTransfer)
    (resp : Option TransferResponse) : Except NWError NorthwindTransfer :=
  match GetTransfer userId lookup with
  | .error e => .error e
  | .ok transfer =>
      match resp with
      | none => .error .cancelUpstreamFailed
      | some r => .ok (applyUpstreamOutcome transfer r)

/-- Embedding of `NorthwindTransferService.ReverseTransfer` (same store
behaviour as `CancelTransfer`, against the reverse endpoint). -/
def ReverseTransfer (userId : ℕ) (lookup : Option NorthwindTransfer)
    (resp : Option TransferResponse) : Except NWError NorthwindTransfer :=
  match GetTransfer userId lookup with
  | .error e => .error e
  | .ok transfer =>
      match resp with
      | none => .error .reverseUpstreamFailed
      | some r => .ok (applyUpstreamOutcome transfer r)

/-! ## NorthwindPollingService (services — polling service file) -/

/-- Embedding of one `checkTransferStatus` step for a single transfer.
`resp = none` models a `GetTransferStatus` transport error (logged, no write).
Returns the updated row that `transferRepo.Update` writes, or `none` when no
write happens (error, or unchanged status).  On a status change the three
date columns are assigned from `ParseRFC3339Optional` of the response fields
and the error columns from non-empty response fields. -/
def checkTransferStatus (timeParse : String → Option ℕ) (transfer : NorthwindTransfer)
    (resp : Option TransferResponse) : Option NorthwindTransfer :=
  match resp with
  | none => none
  | some r =>
      let newStatus := MapStatus r.status
      if newStatus = transfer.status then none
      else
        let t1 := { transfer with
          status := newStatus
          processingDate := ParseRFC3339Optional timeParse r.processingDate
          completedDate := ParseRFC3339Optional timeParse r.completedDate
          expectedCompletionDate := ParseRFC3339Optional timeParse r.expectedCompletionDate }
        let t2 := if r.errorCode ≠ "" then { t1 with errorCode := some r.errorCode } else t1
        some (if r.errorMessage ≠ "" then { t2 with errorMessage := some r.errorMessage } else t2)

/-- Embedding of `northwindTransferRepository.GetPendingTransfers`: the rows
with status PENDING or PROCESSING, up to `limit` of them.  (The `created_at`
ordering of the SQL query is not modelled; no claim here depends on which
pending rows fill the batch.) -/
def GetPendingTransfers (transfers : List NorthwindTransfer) (limit : ℕ) :
    List NorthwindTransfer :=
  (transfers.filter fun t =>
    t.status = NWTransferStatusPending ∨ t.status = NWTransferStatusProcessing).take limit

/-- `transferRepo.Update` (gorm `Save`): replace the row with the same id. -/
def updateTransferRow (store : List NorthwindTransfer) (t : NorthwindTransfer) :
    List NorthwindTransfer :=
  store.map fun u => if u.id = t.id then t else u

/-- One iteration of the polling loop body for a fetched transfer `t`: run
`checkTransferStatus` (with the per-transfer upstream outcome `statusResp`)
and apply its row update to the table if it produced one. -/
def pollStep (timeParse : String → Option ℕ) (statusResp : ℕ → Option TransferResponse)
    (st : List NorthwindTransfer) (t : NorthwindTransfer) : List NorthwindTransfer :=
  match checkTransferStatus timeParse t (statusResp t.id) with
  | none => st
  | some t' => updateTransferRow st t'

/-- Embedding of one `PollOnce` pass over the transfers table: fetch up to 50
PENDING/PROCESSING rows, then run `pollStep` for each.  The
regulator-notification trigger only touches the notification tables, so it is
omitted from this transfers-table view. -/
def PollOnce (timeParse : String → Option ℕ) (statusResp : ℕ → Option TransferResponse)
    (store : List NorthwindTransfer) : List NorthwindTransfer :=
  (GetPendingTransfers store 50).foldl (pollStep timeParse statusResp) store

/-! ## Concrete sample values for counterexamples and witnesses -/

/-- A concrete webhook payload. -/
def samplePayload : RegulatorWebhookPayload :=
  { eventId := "evt-1", transferId := 2, northwindTransferId := 3, status := "COMPLETED",
    amount := 100, currency := "USD", direction := "OUTBOUND", transferType := "ACH",
    timestamp := 0 }

/-- A concrete notification row with the given identity and counters. -/
def sampleNotification (id transferId : ℕ) (delivered : Bool) (attemptCount : ℕ) :
    RegulatorNotification :=
  { id := id, transferId := transferId, terminalStatus := "COMPLETED",
    delivered := delivered, attemptCount := attemptCount, firstAttemptAt := none,
    lastAttemptAt := none, nextAttemptAt := some 0, lastHTTPStatus := none,
    lastError := none, payload := samplePayload }

/-- A concrete transfer row with the given identity, owner, status and stored
`processing_date`; the remaining columns are fixed representative values. -/
def sampleTransfer (id : ℕ) (userId : Option ℕ) (status : String)
    (processingDate : Option ℕ) : NorthwindTransfer :=
  { id := id, userId := userId, northwindTransferId := id + 100,
    direction := "OUTBOUND", transferType := "ACH", amount := 100, currency := "USD",
    description := none, referenceNumber := "REF-1", scheduledDate := none,
    sourceAccountNumber := "1234567890", sourceRoutingNumber := none,
    sourceAccountHolderName := none, destinationAccountNumber := "0987654321",
    destinationRoutingNumber := none, destinationAccountHolderName := none,
    status := status, errorCode := none, errorMessage := none, initiatedDate := none,
    processingDate := processingDate, expectedCompletionDate := none,
    completedDate := none, fee := none, exchangeRate := none }

/-- A concrete upstream transfer response carrying only a status (all optional
JSON string fields absent, i.e. decoded to `""`). -/
def sampleStatusResponse (status : String) : TransferResponse :=
  { transferId := "", status := status, amount := 100, currency := "USD",
    direction := "OUTBOUND", transferType := "ACH", referenceNumber := "REF-1",
    description := "", scheduledDate := "",
    sourceAccount := ⟨"", "1234567890", "", ""⟩,
    destinationAccount := ⟨"", "0987654321", "", ""⟩,
    initiatedDate := "", processingDate := "", expectedCompletionDate := "",
    completedDate := "", fee := none, exchangeRate := none,
    errorCode := "", errorMessage := "" }

/-- A concrete create-transfer request for amount 100. -/
def sampleRequest : CreateTransferRequest :=
  { amount := 100, currency := "USD", description := "", direction := "OUTBOUND",
    transferType := "ACH", referenceNumber := "REF-1", scheduledDate := "",
    sourceAccount := ⟨"Alice", "1234567890", "021000021", ""⟩,
    destinationAccount := ⟨"Bob", "0987654321", "121000248", ""⟩ }

/-- A concrete balance report for the sample source account. -/
def sampleBalance (available : ℚ) : AccountBalance :=
  { accountNumber := "1234567890", availableBalance := available,
    currentBalance := available, currency := "USD" }

/-! ## C5 — MapStatus case handling -/

/-- C5 (counterexample): the claim says any casing of "completed" maps to
COMPLETED, but `MapStatus` matches only the exact strings "COMPLETED" and
"completed"; the mixed-case "Completed" falls through to the default and maps
to PENDING, not COMPLETED. -/
theorem mapStatus_mixed_case_counterexample :
    MapStatus "Completed" = NWTransferStatusPending ∧
      MapStatus "Completed" ≠ NWTransferStatusCompleted := by
  constructor
  · rfl
  · decide

/-- C5 (amended): `MapStatus` maps the exact all-uppercase and all-lowercase
spellings of completed/failed/cancelled/reversed/processing to the
corresponding local status, and every other string — mixed casings
included — to PENDING. -/
theorem mapStatus_exact_case (s : String)
    (h : s ∉ (["COMPLETED", "completed", "FAILED", "failed", "CANCELLED", "cancelled",
        "REVERSED", "reversed", "PROCESSING", "processing"] : List String)) :
    MapStatus "COMPLETED" = NWTransferStatusCompleted ∧
    MapStatus "completed" = NWTransferStatusCompleted ∧
    MapStatus "FAILED" = NWTransferStatusFailed ∧
    MapStatus "failed" = NWTransferStatusFailed ∧
    MapStatus "CANCELLED" = NWTransferStatusCancelled ∧
    MapStatus "cancelled" = NWTransferStatusCancelled ∧
    MapStatus "REVERSED" = NWTransferStatusReversed ∧
    MapStatus "reversed" = NWTransferStatusReversed ∧
    MapStatus "PROCESSING" = NWTransferStatusProcessing ∧
    MapStatus "processing" = NWTransferStatusProcessing ∧
    MapStatus s = NWTransferStatusPending := by
  simp only [List.mem_cons, List.not_mem_nil, or_false, not_or] at h
  obtain ⟨h1, h2, h3, h4, h5, h6, h7, h8, h9, h10⟩ := h
  refine ⟨rfl, rfl, rfl, rfl, rfl, rfl, rfl, rfl, rfl, rfl, ?_⟩
  simp [MapStatus, h1, h2, h3, h4, h5, h6, h7, h8, h9, h10]

/-- C5 (witness): a string outside the recognized set, e.g. "Completed"
itself, maps to PENDING. -/
theorem mapStatus_exact_case_witness :
    MapStatus "Completed" = NWTransferStatusPending :=
  (mapStatus_exact_case "Completed" (by decide)).2.2.2.2.2.2.2.2.2.2

/-! ## C9 — GetTransfer ownership scoping -/

/-- C9 (counterexample): the claim says a stored transfer whose user is null
is NotFound for every caller, but `GetTransfer`'s ownership check
(`transfer.UserID != nil && *transfer.UserID != userID`) passes when the
stored user is null, so the transfer is returned to any caller. -/
theorem getTransfer_nil_user_counterexample :
    (sampleTransfer 1 none "PENDING" none).userId = none ∧
      GetTransfer 7 (some (sampleTransfer 1 none "PENDING" none)) =
        .ok (sampleTransfer 1 none "PENDING" none) := by
  exact ⟨rfl, rfl⟩

/-- C9 (amended): `GetTransfer` returns the NotFound error (never a Forbidden
error, which does not exist on this path) whenever the stored transfer's user
is non-null and differs from the caller; a transfer whose stored user is null
is returned to every caller. -/
theorem getTransfer_ownership_scoping (u : ℕ) (t : NorthwindTransfer) :
    (∀ v, t.userId = some v → v ≠ u →
        GetTransfer u (some t) = .error NWError.transferNotFound) ∧
    (t.userId = none → GetTransfer u (some t) = .ok t) := by
  constructor
  · intro v hv hne
    simp [GetTransfer, hv, hne]
  · intro hv
    simp [GetTransfer, hv]

/-- C9 (witness): the owner of a transfer owned by user 5 is not caller 7, so
the call returns NotFound; instantiated at concrete inputs. -/
theorem getTransfer_ownership_scoping_witness :
    GetTransfer 7 (some (sampleTransfer 1 (some 5) "PENDING" none)) =
      .error NWError.transferNotFound :=
  (getTransfer_ownership_scoping 7 (sampleTransfer 1 (some 5) "PENDING" none)).1
    5 rfl (by decide)

/-! ## C4 — backoff bounds with the default configuration -/

/-- Arithmetic core of the backoff bounds: for a capped base value
`B ∈ [2, 60]` and a uniform draw `u ∈ [0, 1]`, the jittered value
`B + B·(1/5)·(2u − 1)` lies in `[1, 72]` and factors as `B·(1 + (2u−1)/5)`. -/
theorem backoff_jitter_core (B u : ℚ) (hB2 : 2 ≤ B) (hB60 : B ≤ 60)
    (hu0 : 0 ≤ u) (hu1 : u ≤ 1) :
    1 ≤ B + B * (1/5) * (u * 2 - 1) ∧
      B + B * (1/5) * (u * 2 - 1) ≤ (6/5) * 60 ∧
      B + B * (1/5) * (u * 2 - 1) = B * (1 + (2 * u - 1) / 5) := by
  refine ⟨?_, ?_, by ring⟩
  · nlinarith [mul_nonneg (by linarith : (0:ℚ) ≤ B) hu0]
  · nlinarith [mul_nonneg (by linarith : (0:ℚ) ≤ 60 - B) (by linarith : (0:ℚ) ≤ 2 - u * 2)]

/-- C4: with the default configuration (`retry_initial_seconds = 2`,
`retry_max_seconds = 60`) and any uniform draw `u ∈ [0, 1]` (so the jitter
factor `(2u−1)/5` ranges over `[−0.2, +0.2]`), for every attempt count
`k ≥ 1` the backoff is at least 1 second, at most `1.2 × 60 = 72` seconds,
and equals `min(2·2^(k−1), 60) × (1 + jitter)` floored at 1 second. -/
theorem calculateBackoff_default_bounds (k : ℕ) (u : ℚ)
    (hk : 1 ≤ k) (hu0 : 0 ≤ u) (hu1 : u ≤ 1) :
    1 ≤ calculateBackoff 2 60 u k ∧
      calculateBackoff 2 60 u k ≤ (6/5) * 60 ∧
      calculateBackoff 2 60 u k =
        max 1 (min ((2:ℚ) * 2 ^ (k - 1)) 60 * (1 + (2 * u - 1) / 5)) := by
  have h1 : (1:ℚ) ≤ 2 ^ (k - 1) := by
    have h0 := pow_le_pow_right₀ (a := (2:ℚ)) (by norm_num) (Nat.zero_le (k - 1))
    simpa using h0
  have hb0 : (2:ℚ) ≤ 2 * 2 ^ (k - 1) := by linarith
  rcases le_or_lt ((2:ℚ) * 2 ^ (k - 1)) 60 with hle | hgt
  · have hcore := backoff_jitter_core (2 * 2 ^ (k - 1)) u hb0 hle hu0 hu1
    have hval : calculateBackoff 2 60 u k =
        2 * 2 ^ (k - 1) + 2 * 2 ^ (k - 1) * (1/5) * (u * 2 - 1) := by
      simp only [calculateBackoff]
      rw [if_neg (not_lt.mpr hle), if_neg (not_lt.mpr hcore.1)]
    refine ⟨by rw [hval]; exact hcore.1, by rw [hval]; exact hcore.2.1, ?_⟩
    rw [hval, hcore.2.2, min_eq_left hle,
      max_eq_right (by rw [← hcore.2.2]; exact hcore.1)]
  · have hcore := backoff_jitter_core 60 u (by norm_num) le_rfl hu0 hu1
    have hval : calculateBackoff 2 60 u k = 60 + 60 * (1/5) * (u * 2 - 1) := by
      simp only [calculateBackoff]
      rw [if_pos hgt, if_neg (not_lt.mpr hcore.1)]
    refine ⟨by rw [hval]; exact hcore.1, by rw [hval]; exact hcore.2.1, ?_⟩
    rw [hval, hcore.2.2, min_eq_right (le_of_lt hgt),
      max_eq_right (by rw [← hcore.2.2]; exact hcore.1)]

/-- C4 (witness): attempt count 3 with the midpoint draw `u = 1/2` (zero
jitter) gives backoff `2·2^2 = 8` seconds, inside `[1, 72]`. -/
theorem calculateBackoff_default_bounds_witness :
    1 ≤ calculateBackoff 2 60 (1/2) 3 ∧
      calculateBackoff 2 60 (1/2) 3 ≤ (6/5) * 60 ∧
      calculateBackoff 2 60 (1/2) 3 =
        max 1 (min ((2:ℚ) * 2 ^ (3 - 1)) 60 * (1 + (2 * (1/2) - 1) / 5)) :=
  calculateBackoff_default_bounds 3 (1/2) (by norm_num) (by norm_num) (by norm_num)

/-! ## C7 — CreateTransfer validation rejection -/

/-- C7 (counterexample): the claim says any successful validation response
containing a severity "error" issue fails the operation, but the code only
scans the issues when `Valid == false`; with `valid = true` and an
error-severity issue the operation proceeds, calls `InitiateTransfer`, and
writes a Transfer row. -/
theorem createTransfer_valid_true_error_issue_counterexample :
    ((TransferValidationResponse.mk true [⟨"amount", "bad amount", "error"⟩]).issues.any
        fun i => i.severity == "error") = true ∧
    (CreateTransfer (fun _ => none) (fun _ => none) 10 11 1 sampleRequest
        (some (TransferValidationResponse.mk true [⟨"amount", "bad amount", "error"⟩]))
        (some (sampleBalance 1000))
        (some (sampleStatusResponse "PENDING"))).initiateCalled = true ∧
    (CreateTransfer (fun _ => none) (fun _ => none) 10 11 1 sampleRequest
        (some (TransferValidationResponse.mk true [⟨"amount", "bad amount", "error"⟩]))
        (some (sampleBalance 1000))
        (some (sampleStatusResponse "PENDING"))).result.isOk = true ∧
    (CreateTransfer (fun _ => none) (fun _ => none) 10 11 1 sampleRequest
        (some (TransferValidationResponse.mk true [⟨"amount", "bad amount", "error"⟩]))
        (some (sampleBalance 1000))
        (some (sampleStatusResponse "PENDING"))).storedRow.isSome = true := by
  refine ⟨rfl, ?_, ?_, ?_⟩ <;> rfl

/-- C7 (amended): whenever the upstream validation call succeeds with a
response whose `valid` flag is false and whose issues contain one with
severity "error", `CreateTransfer` fails with the TransferValidationFailed
error carrying that issue's message, `InitiateTransfer` is not called, and no
Transfer row is written.  (A response with `valid = true` is accepted
regardless of its issues.) -/
theorem createTransfer_validation_reject (uuidParse timeParse : String → Option ℕ)
    (fallbackNwId newLocalId userId : ℕ) (req : CreateTransferRequest)
    (v : TransferValidationResponse) (bresp : Option AccountBalance)
    (iresp : Option TransferResponse)
    (hvalid : v.valid = false)
    (herr : ∃ i ∈ v.issues, i.severity = "error") :
    ∃ msg,
      CreateTransfer uuidParse timeParse fallbackNwId newLocalId userId req
          (some v) bresp iresp =
        { result := .error (.validationFailed msg), initiateCalled := false,
          storedRow := none } := by
  have hsome : (v.issues.find? fun issue => issue.severity == "error").isSome := by
    rw [List.find?_isSome]
    obtain ⟨i, hi, hsev⟩ := herr
    exact ⟨i, hi, by simp [hsev]⟩
  obtain ⟨i0, hfind⟩ := Option.isSome_iff_exists.mp hsome
  exact ⟨i0.message, by simp [CreateTransfer, hvalid, hfind]⟩

/-- C7 (witness): a `valid = false` response with one error-severity issue
rejects a concrete request. -/
theorem createTransfer_validation_reject_witness :
    ∃ msg,
      CreateTransfer (fun _ => none) (fun _ => none) 10 11 1 sampleRequest
          (some (TransferValidationResponse.mk false [⟨"amount", "bad amount", "error"⟩]))
          (some (sampleBalance 1000)) (some (sampleStatusResponse "PENDING")) =
        { result := .error (.validationFailed msg), initiateCalled := false,
          storedRow := none } :=
  createTransfer_validation_reject (fun _ => none) (fun _ => none) 10 11 1 sampleRequest
    (TransferValidationResponse.mk false [⟨"amount", "bad amount", "error"⟩])
    (some (sampleBalance 1000)) (some (sampleStatusResponse "PENDING"))
    rfl ⟨⟨"amount", "bad amount", "error"⟩, by simp, rfl⟩

/-! ## C8 — CreateTransfer insufficient balance -/

/-- C8: whenever the operation reaches the balance check (the validation step
did not reject), the balance call succeeds, and the reported available
balance is strictly below the requested amount, `CreateTransfer` fails with
the InsufficientBalance error, `InitiateTransfer` is not called, and no
Transfer row is written. -/
theorem createTransfer_insufficient_balance (uuidParse timeParse : String → Option ℕ)
    (fallbackNwId newLocalId userId : ℕ) (req : CreateTransferRequest)
    (vresp : Option TransferValidationResponse) (b : AccountBalance)
    (iresp : Option TransferResponse)
    (hpass : ∀ v, vresp = some v → v.valid = false →
      (v.issues.find? fun issue => issue.severity == "error") = none)
    (hbal : b.availableBalance < req.amount) :
    CreateTransfer uuidParse timeParse fallbackNwId newLocalId userId req
        vresp (some b) iresp =
      { result := .error .insufficientBalance, initiateCalled := false,
        storedRow := none } := by
  cases vresp with
  | none => simp [CreateTransfer, hbal]
  | some v =>
      rcases hv : v.valid with _ | _
      · simp [CreateTransfer, hv, hpass v rfl hv, hbal]
      · simp [CreateTransfer, hv, hbal]

/-- C8 (witness): a request for 500 against an available balance of 250 fails
with InsufficientBalance without initiating upstream or storing a row. -/
theorem createTransfer_insufficient_balance_witness :
    CreateTransfer (fun _ => none) (fun _ => none) 10 11 1
        { sampleRequest with amount := 500 } none (some (sampleBalance 250))
        (some (sampleStatusResponse "PENDING")) =
      { result := .error .insufficientBalance, initiateCalled := false,
        storedRow := none } :=
  createTransfer_insufficient_balance (fun _ => none) (fun _ => none) 10 11 1
    { sampleRequest with amount := 500 } none (sampleBalance 250)
    (some (sampleStatusResponse "PENDING"))
    (fun v hv => by cases hv) (by norm_num [sampleBalance])

/-! ## C6 — reconciler date-field update behaviour -/

/-- C6 (counterexample): the claim says a date field absent from the upstream
response leaves the stored value unchanged, but `checkTransferStatus` assigns
all three date columns unconditionally from `ParseRFC3339Optional`; a stored
`processing_date` of tick 5 is cleared to null when the response carries no
`processing_date` (the field decodes to `""`). -/
theorem checkTransferStatus_clears_absent_date_counterexample :
    (sampleTransfer 1 (some 1) "PENDING" (some 5)).processingDate = some 5 ∧
    (sampleStatusResponse "COMPLETED").processingDate = "" ∧
    ∃ t', checkTransferStatus (fun _ => none)
          (sampleTransfer 1 (some 1) "PENDING" (some 5))
          (some (sampleStatusResponse "COMPLETED")) = some t' ∧
        t'.processingDate = none := by
  exact ⟨rfl, rfl, _, rfl, rfl⟩

/-- C6 (amended): on a status change the reconciler overwrites all three date
columns with the parsed response values — so a date field absent from (or
unparseable in) the response clears the stored value to null — while
`error_code` and `error_message` are overwritten only when the response field
is non-empty and otherwise keep their stored values. -/
theorem checkTransferStatus_field_update (timeParse : String → Option ℕ)
    (t : NorthwindTransfer) (r : TransferResponse) (t' : NorthwindTransfer)
    (h : checkTransferStatus timeParse t (some r) = some t') :
    t'.status = MapStatus r.status ∧
    t'.processingDate = ParseRFC3339Optional timeParse r.processingDate ∧
    t'.completedDate = ParseRFC3339Optional timeParse r.completedDate ∧
    t'.expectedCompletionDate = ParseRFC3339Optional timeParse r.expectedCompletionDate ∧
    (r.errorCode = "" → t'.errorCode = t.errorCode) ∧
    (r.errorMessage = "" → t'.errorMessage = t.errorMessage) := by
  simp only [checkTransferStatus] at h
  split at h
  · exact absurd h (by simp)
  · rw [Option.some_inj] at h
    subst h
    refine ⟨?_, ?_, ?_, ?_, ?_, ?_⟩ <;> · split_ifs <;> simp_all

/-- C6 (witness): concrete instance of the field-update behaviour at the
counterexample's inputs. -/
theorem checkTransferStatus_field_update_witness :
    let t := sampleTransfer 1 (some 1) "PENDING" (some 5)
    let r := sampleStatusResponse "COMPLETED"
    let t' := { t with status := "COMPLETED", processingDate := none }
    t'.status = MapStatus r.status ∧
    t'.processingDate = ParseRFC3339Optional (fun _ => none) r.processingDate ∧
    t'.completedDate = ParseRFC3339Optional (fun _ => none) r.completedDate ∧
    t'.expectedCompletionDate =
      ParseRFC3339Optional (fun _ => none) r.expectedCompletionDate ∧
    (r.errorCode = "" → t'.errorCode = t.errorCode) ∧
    (r.errorMessage = "" → t'.errorMessage = t.errorMessage) :=
  checkTransferStatus_field_update (fun _ => none)
    (sampleTransfer 1 (some 1) "PENDING" (some 5))
    (sampleStatusResponse "COMPLETED") _ rfl

/-! ## C3 — status monotonicity of terminal transfers -/

/-- A `checkTransferStatus` write never changes the row's primary key. -/
theorem checkTransferStatus_id (timeParse : String → Option ℕ)
    (t : NorthwindTransfer) (resp : Option TransferResponse) (t' : NorthwindTransfer)
    (h : checkTransferStatus timeParse t resp = some t') : t'.id = t.id := by
  cases resp with
  | none => simp [checkTransferStatus] at h
  | some r =>
      simp only [checkTransferStatus] at h
      split at h
      · exact absurd h (by simp)
      · rw [Option.some_inj] at h
        subst h
        split_ifs <;> rfl

/-- Rows fetched by `GetPendingTransfers` come from the table and have status
PENDING or PROCESSING. -/
theorem mem_getPendingTransfers {store : List NorthwindTransfer} {limit : ℕ}
    {b : NorthwindTransfer} (h : b ∈ GetPendingTransfers store limit) :
    b ∈ store ∧
      (b.status = NWTransferStatusPending ∨ b.status = NWTransferStatusProcessing) := by
  have h1 := List.mem_of_mem_take h
  rw [List.mem_filter] at h1
  exact ⟨h1.1, by simpa using h1.2⟩

/-- A terminal status is neither PENDING nor PROCESSING. -/
theorem terminal_not_pending {s : String} (h : isTerminalStatus s = true) :
    s ≠ NWTransferStatusPending ∧ s ≠ NWTransferStatusProcessing := by
  simp only [isTerminalStatus, decide_eq_true_eq] at h
  rcases h with h | h | h | h <;> subst h <;> exact ⟨by decide, by decide⟩

/-- Folding `pollStep` over a batch none of whose rows carries the id of `t`
leaves the (unique) row with that id untouched. -/
theorem foldl_pollStep_preserves (timeParse : String → Option ℕ)
    (statusResp : ℕ → Option TransferResponse) (t : NorthwindTransfer)
    (batch : List NorthwindTransfer) (hbatch : ∀ b ∈ batch, b.id ≠ t.id) :
    ∀ st : List NorthwindTransfer, t ∈ st → (∀ u ∈ st, u.id = t.id → u = t) →
      t ∈ batch.foldl (pollStep timeParse statusResp) st ∧
        ∀ u ∈ batch.foldl (pollStep timeParse statusResp) st, u.id = t.id → u = t := by
  induction batch with
  | nil => exact fun st h1 h2 => ⟨h1, h2⟩
  | cons b bs ih =>
      intro st h1 h2
      have hb : b.id ≠ t.id := hbatch b (by simp)
      have hbs : ∀ x ∈ bs, x.id ≠ t.id := fun x hx => hbatch x (by simp [hx])
      rw [List.foldl_cons]
      cases hcts : checkTransferStatus timeParse b (statusResp b.id) with
      | none =>
          have hstep : pollStep timeParse statusResp st b = st := by
            simp [pollStep, hcts]
          rw [hstep]
          exact ih hbs st h1 h2
      | some t' =>
          have hid : t'.id = b.id := checkTransferStatus_id _ _ _ _ hcts
          have hstep : pollStep timeParse statusResp st b = updateTransferRow st t' := by
            simp [pollStep, hcts]
          rw [hstep]
          apply ih hbs
          · have hneq : t.id ≠ t'.id := by
              rw [hid]
              exact fun hc => hb hc.symm
            have heq : (if t.id = t'.id then t' else t) = t := if_neg hneq
            exact heq ▸ List.mem_map_of_mem _ h1
          · intro u hu hut
            obtain ⟨u0, hu0, hequ⟩ := List.mem_map.mp hu
            by_cases hc : u0.id = t'.id
            · rw [if_pos hc] at hequ
              subst hequ
              exact absurd (hid.symm.trans hut) hb
            · rw [if_neg hc] at hequ
              subst hequ
              exact h2 u0 hu0 hut

/-- C3 (counterexample): the claim says no operation ever moves a terminal
transfer back to PENDING/PROCESSING for any upstream response status, but
`CancelTransfer` overwrites the status with `MapStatus` of whatever the
upstream cancel endpoint reports: on a stored COMPLETED transfer an
unrecognized upstream status string maps to PENDING and is written back. -/
theorem cancelTransfer_regresses_terminal_counterexample :
    isTerminalStatus (sampleTransfer 1 (some 1) "COMPLETED" none).status = true ∧
    ∃ t', CancelTransfer 1 (some (sampleTransfer 1 (some 1) "COMPLETED" none))
          (some (sampleStatusResponse "garbage")) = .ok t' ∧
        t'.status = NWTransferStatusPending := by
  exact ⟨rfl, _, rfl, rfl⟩

/-- C3 (amended): the reconciler poll never regresses a terminal transfer —
it only fetches PENDING/PROCESSING rows, so the row of every transfer whose
status is in T = {COMPLETED, FAILED, CANCELLED, REVERSED} is untouched by
`PollOnce` for every upstream response — but `CancelTransfer` and
`ReverseTransfer` write the mapped upstream status unconditionally, so they
can set a terminal transfer back to PENDING/PROCESSING (see the
counterexample). -/
theorem pollOnce_preserves_terminal (timeParse : String → Option ℕ)
    (statusResp : ℕ → Option TransferResponse) (store : List NorthwindTransfer)
    (t : NorthwindTransfer) (hmem : t ∈ store)
    (hterm : isTerminalStatus t.status = true)
    (hids : (store.map (·.id)).Nodup) :
    t ∈ PollOnce timeParse statusResp store ∧
      ∀ u ∈ PollOnce timeParse statusResp store, u.id = t.id → u = t := by
  have huniq : ∀ u ∈ store, u.id = t.id → u = t := by
    intro u hu hid
    exact List.inj_on_of_nodup_map hids hu hmem hid
  have hbatch : ∀ b ∈ GetPendingTransfers store 50, b.id ≠ t.id := by
    intro b hb hbid
    obtain ⟨hbs, hstat⟩ := mem_getPendingTransfers hb
    have hbt : b = t := huniq b hbs hbid
    subst hbt
    rcases hstat with h | h
    · exact (terminal_not_pending hterm).1 h
    · exact (terminal_not_pending hterm).2 h
  exact foldl_pollStep_preserves timeParse statusResp t _ hbatch store hmem huniq

/-- C3 (witness): a one-row table holding a COMPLETED transfer is unchanged
by a poll pass in which upstream would report "PROCESSING". -/
theorem pollOnce_preserves_terminal_witness :
    sampleTransfer 1 (some 1) "COMPLETED" none ∈
      PollOnce (fun _ => none) (fun _ => some (sampleStatusResponse "PROCESSING"))
        [sampleTransfer 1 (some 1) "COMPLETED" none] ∧
    ∀ u ∈ PollOnce (fun _ => none) (fun _ => some (sampleStatusResponse "PROCESSING"))
        [sampleTransfer 1 (some 1) "COMPLETED" none],
      u.id = (sampleTransfer 1 (some 1) "COMPLETED" none).id →
        u = sampleTransfer 1 (some 1) "COMPLETED" none :=
  pollOnce_preserves_terminal (fun _ => none)
    (fun _ => some (sampleStatusResponse "PROCESSING"))
    [sampleTransfer 1 (some 1) "COMPLETED" none]
    (sampleTransfer 1 (some 1) "COMPLETED" none)
    (by simp) rfl (by simp)

/-! ## C1 — delivered flag vs. success attempt row across store writes -/

/-- C1 (evaluation at the failing input): run `attemptDelivery` on a one-row
store holding an undelivered notification, with the regulator answering 200.
The writes are issued as two separate repository calls — the notification
update (setting `delivered=true`) first, the attempt insert second — so among
the observable store states there is one in which a notification has
`delivered=true` while the attempts table is still empty, violating the
delivered ⇔ success-attempt invariant the claim asserts at every
store-observable point. -/
theorem attemptDelivery_not_transactional :
    ∃ s ∈ observableStates { notifications := [sampleNotification 1 2 false 0], attempts := [] }
        (attemptDeliveryOps 5 2 (sampleNotification 1 2 false 0)
          (WebhookOutcome.response 200 "ok")),
      (∃ m ∈ s.notifications, m.delivered = true) ∧ s.attempts = [] ∧
        ¬ deliveredIffSuccessAttempt s := by
  decide

/-! ## C10 — one audit row and one counter bump per delivery attempt -/

/-- Helper: a string append with a non-empty left part is non-empty. -/
theorem append_left_ne_empty (s t : String) (h : s ≠ "") : s ++ t ≠ "" := by
  intro he
  apply h
  have hd : (s ++ t).data = ([] : List Char) := by rw [he]
  rw [String.data_append] at hd
  rcases List.append_eq_nil.mp hd with ⟨hs, _⟩
  cases s
  subst hs
  rfl

/-- C10: provided all repository writes succeed, a single `attemptDelivery`
invocation appends exactly one attempt row and replaces the notification row
(same id) with one whose `attempt_count` is exactly one higher, in every
branch (2xx, non-2xx, transport error, request-construction failure); the
inserted row has a non-null `http_status` exactly when an HTTP response was
received, and a non-null `error` exactly when the attempt was not a 2xx
success.  (A transport error's message is non-empty, as Go's `http.Client.Do`
errors always are.) -/
theorem attemptDelivery_ledger (s : RegStore) (now backoff : ℕ)
    (n : RegulatorNotification) (out : WebhookOutcome)
    (hmsg : ∀ msg, out = WebhookOutcome.transportError msg → msg ≠ "") :
    ∃ a nf,
      (applyOps s (attemptDeliveryOps now backoff n out)).attempts = s.attempts ++ [a] ∧
      (applyOps s (attemptDeliveryOps now backoff n out)).notifications =
        (s.notifications.map fun m => if m.id = n.id then nf else m) ∧
      nf.id = n.id ∧ nf.attemptCount = n.attemptCount + 1 ∧
      a.notificationId = n.id ∧
      (a.httpStatus.isSome = true ↔ ∃ st b, out = WebhookOutcome.response st b) ∧
      (a.error.isSome = true ↔
        ¬ ∃ st b, out = WebhookOutcome.response st b ∧ 200 ≤ st ∧ st < 300) := by
  cases out with
  | reqError msg =>
      have hne : ("failed to create request: " ++ msg) ≠ "" :=
        append_left_ne_empty _ _ (by decide)
      refine ⟨recordAttempt n none ("failed to create request: " ++ msg) "",
        scheduleRetry now backoff n, ?_, ?_, rfl, rfl, rfl, by simp [recordAttempt], ?_⟩
      · simp [applyOps, applyOp, attemptDeliveryOps]
      · simp [applyOps, applyOp, attemptDeliveryOps, scheduleRetry]
      · simp [recordAttempt, hne]
  | transportError msg =>
      have hne : msg ≠ "" := hmsg msg rfl
      refine ⟨recordAttempt n none msg "", scheduleRetry now backoff n,
        ?_, ?_, rfl, rfl, rfl, by simp [recordAttempt], ?_⟩
      · simp [applyOps, applyOp, attemptDeliveryOps]
      · simp [applyOps, applyOp, attemptDeliveryOps, scheduleRetry]
      · simp [recordAttempt, hne]
  | response status body =>
      by_cases hrange : 200 ≤ status ∧ status < 300
      · refine ⟨recordAttempt (markDelivered now status n) (some status) ""
            (truncateBody body), markDelivered now status n,
          ?_, ?_, rfl, rfl, rfl, by simp [recordAttempt], ?_⟩
        · simp [applyOps, applyOp, attemptDeliveryOps, hrange]
        · simp [applyOps, applyOp, attemptDeliveryOps, hrange, markDelivered]
        · simp [recordAttempt, hrange]
      · have hne : ("webhook returned HTTP " ++ toString status) ≠ "" :=
          append_left_ne_empty _ _ (by decide)
        refine ⟨recordAttempt n (some status)
            ("webhook returned HTTP " ++ toString status) (truncateBody body),
          scheduleRetry now backoff n,
          ?_, ?_, rfl, rfl, rfl, by simp [recordAttempt], ?_⟩
        · simp [applyOps, applyOp, attemptDeliveryOps, hrange]
        · simp [applyOps, applyOp, attemptDeliveryOps, hrange, scheduleRetry]
        · simp [recordAttempt, hne, hrange]

/-- C10 (witness): a 200 response against a fresh notification, instantiated
on a one-row store; the transport-message hypothesis is vacuous here. -/
theorem attemptDelivery_ledger_witness :
    ∃ a nf,
      (applyOps { notifications := [sampleNotification 1 2 false 0], attempts := [] }
          (attemptDeliveryOps 5 2 (sampleNotification 1 2 false 0)
            (WebhookOutcome.response 200 "ok"))).attempts = [] ++ [a] ∧
      (applyOps { notifications := [sampleNotification 1 2 false 0], attempts := [] }
          (attemptDeliveryOps 5 2 (sampleNotification 1 2 false 0)
            (WebhookOutcome.response 200 "ok"))).notifications =
        ([sampleNotification 1 2 false 0].map
          fun m => if m.id = (sampleNotification 1 2 false 0).id then nf else m) ∧
      nf.id = (sampleNotification 1 2 false 0).id ∧
      nf.attemptCount = (sampleNotification 1 2 false 0).attemptCount + 1 ∧
      a.notificationId = (sampleNotification 1 2 false 0).id ∧
      (a.httpStatus.isSome = true ↔
        ∃ st b, WebhookOutcome.response 200 "ok" = WebhookOutcome.response st b) ∧
      (a.error.isSome = true ↔
        ¬ ∃ st b, WebhookOutcome.response 200 "ok" = WebhookOutcome.response st b ∧
          200 ≤ st ∧ st < 300) :=
  attemptDelivery_ledger { notifications := [sampleNotification 1 2 false 0], attempts := [] }
    5 2 (sampleNotification 1 2 false 0) (WebhookOutcome.response 200 "ok")
    (fun msg h => by cases h)

/-! ## C2 — idempotent notification creation -/

/-- Helper: updating by an id that occurs only in the appended row rewrites
exactly that row. -/
theorem map_replace_append_fresh (l : List RegulatorNotification)
    (n nf : RegulatorNotification) (hfresh : n.id ∉ l.map (·.id)) :
    ((l ++ [n]).map fun m => if m.id = n.id then nf else m) = l ++ [nf] := by
  rw [List.map_append]
  congr 1
  · conv_rhs => rw [← List.map_id l]
    apply List.map_congr_left
    intro m hm
    rw [if_neg]
    · rfl
    · intro he
      exact hfresh (he ▸ List.mem_map_of_mem _ hm)
  · simp

/-- Helper: running `attemptDelivery` right after inserting a fresh
notification row leaves the rest of the table untouched: the final store is
the old one plus one rewritten notification row (same transfer and terminal
status) and one appended attempt row. -/
theorem attemptDelivery_after_insert (s : RegStore) (now backoff : ℕ)
    (n : RegulatorNotification) (out : WebhookOutcome)
    (hfresh : n.id ∉ s.notifications.map (·.id)) :
    ∃ nf a,
      applyOps { s with notifications := s.notifications ++ [n] }
          (attemptDeliveryOps now backoff n out) =
        { notifications := s.notifications ++ [nf], attempts := s.attempts ++ [a] } ∧
      nf.transferId = n.transferId ∧ nf.terminalStatus = n.terminalStatus := by
  cases out with
  | reqError msg =>
      refine ⟨scheduleRetry now backoff n,
        recordAttempt n none ("failed to create request: " ++ msg) "", ?_, rfl, rfl⟩
      simp [applyOps, applyOp, attemptDeliveryOps, scheduleRetry,
        map_replace_append_fresh s.notifications n _ hfresh]
  | transportError msg =>
      refine ⟨scheduleRetry now backoff n, recordAttempt n none msg "", ?_, rfl, rfl⟩
      simp [applyOps, applyOp, attemptDeliveryOps, scheduleRetry,
        map_replace_append_fresh s.notifications n _ hfresh]
  | response status body =>
      by_cases hrange : 200 ≤ status ∧ status < 300
      · refine ⟨markDelivered now status n,
          recordAttempt (markDelivered now status n) (some status) "" (truncateBody body),
          ?_, rfl, rfl⟩
        simp [applyOps, applyOp, attemptDeliveryOps, hrange, markDelivered,
          map_replace_append_fresh s.notifications n _ hfresh]
      · refine ⟨scheduleRetry now backoff n,
          recordAttempt n (some status) ("webhook returned HTTP " ++ toString status)
            (truncateBody body), ?_, rfl, rfl⟩
        simp [applyOps, applyOp, attemptDeliveryOps, hrange, scheduleRetry,
          map_replace_append_fresh s.notifications n _ hfresh]

/-- Helper: once a notification row for the pair exists, every further
`CreateAndSendNotification` invocation is a store no-op returning success. -/
theorem createAndSend_noop (e : DeliveryEnv) (transferId northwindTransferId : ℕ)
    (amount : ℚ) (currency direction transferType terminalStatus : String)
    (st : RegStore) (h : 1 ≤ countFor st transferId terminalStatus) :
    CreateAndSendNotification e transferId northwindTransferId amount currency
      direction transferType terminalStatus st = (st, true) := by
  have hex : existsForTransferAndStatus st transferId terminalStatus = true := by
    unfold existsForTransferAndStatus
    unfold countFor at h
    exact decide_eq_true (by omega)
  simp [CreateAndSendNotification, hex]

/-- Helper: repeated invocations against a store already holding the row are
collectively a no-op. -/
theorem runCreateAndSend_noop (envs : List DeliveryEnv)
    (transferId northwindTransferId : ℕ) (amount : ℚ)
    (currency direction transferType terminalStatus : String) (st : RegStore)
    (h : 1 ≤ countFor st transferId terminalStatus) :
    runCreateAndSend envs transferId northwindTransferId amount currency direction
      transferType terminalStatus st = st := by
  induction envs with
  | nil => rfl
  | cons e es ih =>
      unfold runCreateAndSend
      rw [List.foldl_cons,
        createAndSend_noop e transferId northwindTransferId amount currency direction
          transferType terminalStatus st h]
      exact ih

/-- C2: starting from a store with no notification row for the pair, the
first `CreateAndSendNotification` invocation returns success and leaves
exactly one Notification row for `(transfer_id, terminal_status)`; every
invocation against a store already holding such a row returns success and is
a store no-op (no row created, no delivery attempted), so any number of
further invocations leave the store — in particular the row count and its
attempt count — unchanged. -/
theorem createAndSendNotification_idempotent (env : DeliveryEnv)
    (envs : List DeliveryEnv) (transferId northwindTransferId : ℕ) (amount : ℚ)
    (currency direction transferType terminalStatus : String) (s : RegStore)
    (h0 : countFor s transferId terminalStatus = 0)
    (hfresh : env.freshId ∉ s.notifications.map (·.id)) :
    (CreateAndSendNotification env transferId northwindTransferId amount currency
      direction transferType terminalStatus s).2 = true ∧
    countFor (CreateAndSendNotification env transferId northwindTransferId amount
      currency direction transferType terminalStatus s).1 transferId terminalStatus = 1 ∧
    (∀ e st, 1 ≤ countFor st transferId terminalStatus →
      CreateAndSendNotification e transferId northwindTransferId amount currency
        direction transferType terminalStatus st = (st, true)) ∧
    runCreateAndSend envs transferId northwindTransferId amount currency direction
        transferType terminalStatus
        (CreateAndSendNotification env transferId northwindTransferId amount currency
          direction transferType terminalStatus s).1 =
      (CreateAndSendNotification env transferId northwindTransferId amount currency
        direction transferType terminalStatus s).1 := by
  have hnoex : existsForTransferAndStatus s transferId terminalStatus = false := by
    unfold existsForTransferAndStatus
    unfold countFor at h0
    rw [h0]
    rfl
  obtain ⟨nf, a, happ, htid, hst⟩ :=
    attemptDelivery_after_insert s env.now env.backoff
      (buildNotification env transferId northwindTransferId amount currency direction
        transferType terminalStatus)
      env.outcome hfresh
  have hunfold : CreateAndSendNotification env transferId northwindTransferId amount
      currency direction transferType terminalStatus s =
      ({ notifications := s.notifications ++ [nf], attempts := s.attempts ++ [a] }, true) := by
    have hmid :
        CreateAndSendNotification env transferId northwindTransferId amount currency
          direction transferType terminalStatus s =
        (applyOps
          { s with
            notifications := s.notifications ++
              [buildNotification env transferId northwindTransferId amount currency
                direction transferType terminalStatus] }
          (attemptDeliveryOps env.now env.backoff
            (buildNotification env transferId northwindTransferId amount currency
              direction transferType terminalStatus)
            env.outcome),
        true) := by
      simp [CreateAndSendNotification, hnoex]
    rw [hmid, happ]
  have hcount :
      countFor ({ notifications := s.notifications ++ [nf],
                  attempts := s.attempts ++ [a] } : RegStore)
        transferId terminalStatus = 1 := by
    unfold countFor
    unfold countFor at h0
    rw [List.countP_append, h0]
    simp [List.countP_cons, htid, hst, buildNotification]
  refine ⟨by rw [hunfold], by rw [hunfold]; exact hcount, ?_, ?_⟩
  · intro e st h
    exact createAndSend_noop e transferId northwindTransferId amount currency
      direction transferType terminalStatus st h
  · rw [hunfold]
    exact runCreateAndSend_noop envs transferId northwindTransferId amount currency
      direction transferType terminalStatus _ (by rw [hcount])

/-- C2 (witness): one invocation on an empty store (regulator answering 200)
creates the single row; a second invocation is a no-op. -/
theorem createAndSendNotification_idempotent_witness :
    (CreateAndSendNotification ⟨1, "evt-1", 0, 2, WebhookOutcome.response 200 "ok"⟩
      2 3 100 "USD" "OUTBOUND" "ACH" "COMPLETED" ⟨[], []⟩).2 = true ∧
    countFor (CreateAndSendNotification ⟨1, "evt-1", 0, 2, WebhookOutcome.response 200 "ok"⟩
      2 3 100 "USD" "OUTBOUND" "ACH" "COMPLETED" ⟨[], []⟩).1 2 "COMPLETED" = 1 ∧
    (∀ e st, 1 ≤ countFor st 2 "COMPLETED" →
      CreateAndSendNotification e 2 3 100 "USD" "OUTBOUND" "ACH" "COMPLETED" st = (st, true)) ∧
    runCreateAndSend [⟨7, "evt-2", 9, 4, WebhookOutcome.response 500 "err"⟩]
        2 3 100 "USD" "OUTBOUND" "ACH" "COMPLETED"
        (CreateAndSendNotification ⟨1, "evt-1", 0, 2, WebhookOutcome.response 200 "ok"⟩
          2 3 100 "USD" "OUTBOUND" "ACH" "COMPLETED" ⟨[], []⟩).1 =
      (CreateAndSendNotification ⟨1, "evt-1", 0, 2, WebhookOutcome.response 200 "ok"⟩
        2 3 100 "USD" "OUTBOUND" "ACH" "COMPLETED" ⟨[], []⟩).1 :=
  createAndSendNotification_idempotent
    ⟨1, "evt-1", 0, 2, WebhookOutcome.response 200 "ok"⟩
    [⟨7, "evt-2", 9, 4, WebhookOutcome.response 500 "err"⟩]
    2 3 100 "USD" "OUTBOUND" "ACH" "COMPLETED" ⟨[], []⟩ rfl (by simp)

end NorthwindCore
